import Mathlib

/-!
Verification of the `PytorchTensorflowMnist.ipynb` notebook
(repository `June-Developer/tutorials`).

The notebook is a linear sequence of external-library calls: define a
convolutional network, train it for 60 epochs on MNIST, save the state
dict to `output/mnist.pth`, reload it into a fresh `Net()`, export to
ONNX at `output/mnist.onnx` with a random dummy input of shape
1x1x28x28, import the ONNX file into TensorFlow with
`onnx_tf.backend.prepare`, run inference on the two images
`assets/two.png` and `assets/three.png`, and export the TensorFlow
graph to `output/mnist.pb`.

We embed the executed cells as a trace of atomic events, one event per
library call the notebook performs, in the order the cells execute
them.  File-system effects, stage ordering, error propagation and the
checkpoint/preprocessing data flow are then proved over this trace and
over small functional models of the relevant data flow.
-/

/-- The preprocessing transforms the notebook applies to image pixels.
`toTensor` is torchvision `transforms.ToTensor()` (uint8 0..255 scaled
to 0..1), `normalize m s` is `transforms.Normalize((m,), (s,))`, and
`rawFloat32` is `np.asarray(img, dtype=np.float32)` (raw 0..255 pixel
values, no rescaling). -/
inductive Transform
  | toTensor
  | normalize (mean std : Rat)
  | rawFloat32
  deriving DecidableEq

/-- One atomic operation performed by the notebook, in source order.
Each constructor corresponds to one call the notebook makes (almost
all of them into PyTorch / torchvision / ONNX / onnx-tf / PIL). -/
inductive Ev
  /-- the `class Net(nn.Module)` definition cell -/
  | defineNet
  /-- `torch.manual_seed(seed)` -/
  | manualSeed (seed : Nat)
  /-- `datasets.MNIST(root, train=…, download=…, transform=…)` -/
  | mnistDataset (root : String) (train : Bool) (download : Bool)
      (tfs : List Transform)
  /-- `torch.utils.data.DataLoader(…, batch_size, shuffle, num_workers)` -/
  | makeDataLoader (batchSize : Nat) (shuffle : Bool) (numWorkers : Nat)
  /-- `Net()` construction (`Net().to(device)` or the fresh `Net()`) -/
  | constructNet
  /-- `optim.SGD(model.parameters(), lr, momentum)` -/
  | makeOptimizer (lr momentum : Rat)
  /-- `model.train()` -/
  | setTrainMode
  /-- `model.eval()` -/
  | setEvalMode
  /-- `optimizer.zero_grad()` -/
  | zeroGrad
  /-- `output = model(data)` -/
  | forwardPass
  /-- `F.nll_loss(output, target)` -/
  | computeNllLoss
  /-- `loss.backward()` -/
  | lossBackward
  /-- `optimizer.step()` -/
  | optimizerStep
  /-- `pred = output.max(1, keepdim=True)[1]` and the `pred.eq` count -/
  | computePred
  /-- a `print(...)` call -/
  | logLine
  /-- `torch.save(model.state_dict(), path)` -/
  | torchSave (path : String)
  /-- `torch.load(path)` -/
  | torchLoad (path : String)
  /-- `trained_model.load_state_dict(…)` -/
  | loadStateDict
  /-- `Variable(torch.randn(shape))`, the dummy input -/
  | randn (shape : List Nat)
  /-- `torch.onnx.export(model, dummy_input, path)` -/
  | onnxExport (path : String) (inputShape : List Nat)
  /-- `onnx.load(path)` -/
  | onnxLoad (path : String)
  /-- `onnx_tf.backend.prepare(model)` -/
  | prepareBackend
  /-- `Image.open(path).resize((28, 28)).convert('L')` -/
  | imageOpen (path : String)
  /-- `display(img)` -/
  | displayImage
  /-- `tf_rep.run(input)` with the preprocessing applied to the input
      and the input's shape -/
  | tfRun (tfs : List Transform) (inputShape : List Nat)
  /-- `tf_rep.export_graph(path)` -/
  | exportGraph (path : String)
  deriving DecidableEq

/-- The transform pipeline both MNIST data loaders use:
`transforms.Compose([ToTensor(), Normalize((0.1307,), (0.3081,))])`. -/
def mnistTransforms : List Transform :=
  [.toTensor, .normalize (0.1307 : Rat) (0.3081 : Rat)]

/-- `num_workers`: the notebook passes `{'num_workers': 1, …}` when CUDA
is available and no kwargs (PyTorch default 0) otherwise. -/
def numWorkersOf (useCuda : Bool) : Nat := if useCuda then 1 else 0

/-- One training batch inside `train`: `optimizer.zero_grad()`,
`output = model(data)`, `F.nll_loss`, `loss.backward()`,
`optimizer.step()`, and a log line when `batch_idx % log_interval == 0`. -/
def trainBatch (batchIdx logInterval : Nat) : List Ev :=
  [.zeroGrad, .forwardPass, .computeNllLoss, .lossBackward, .optimizerStep]
    ++ (if batchIdx % logInterval = 0 then [.logLine] else [])

/-- The batches of one call to `train`, for batch indices `0..nb-1` in
enumeration order. -/
def trainBatches (logInterval : Nat) : Nat → List Ev
  | 0 => []
  | nb + 1 => trainBatches logInterval nb ++ trainBatch nb logInterval

/-- One test batch inside `test`: forward pass, summed `F.nll_loss`,
prediction extraction and comparison. -/
def testBatch : List Ev := [.forwardPass, .computeNllLoss, .computePred]

/-- The batches of one call to `test`. -/
def testBatches : Nat → List Ev
  | 0 => []
  | nb + 1 => testBatches nb ++ testBatch

/-- One iteration of `for epoch in range(1, args.epochs + 1)`:
`train(…)` (which starts with `model.train()`) then `test(…)` (which
starts with `model.eval()` and ends with its summary `print`). -/
def epochTrace (nbTrain nbTest logInterval : Nat) : List Ev :=
  .setTrainMode :: trainBatches logInterval nbTrain
    ++ .setEvalMode :: testBatches nbTest ++ [.logLine]

/-- The whole epoch loop, `n` epochs in order. -/
def epochLoop (nbTrain nbTest logInterval : Nat) : Nat → List Ev
  | 0 => []
  | n + 1 => epochLoop nbTrain nbTest logInterval n
      ++ epochTrace nbTrain nbTest logInterval

/-- The training-cell setup, before the epoch loop: seeding, the two
`datasets.MNIST` constructions with their `DataLoader`s,
`model = Net().to(device)` and the SGD optimizer.  `cuda` is whether
`use_cuda` is true at run time. -/
def setupTrace (cuda : Bool) : List Ev :=
  [.manualSeed 1,
   .mnistDataset "../data" true true mnistTransforms,
   .makeDataLoader 64 true (numWorkersOf cuda),
   .mnistDataset "../data" false false mnistTransforms,
   .makeDataLoader 1000 true (numWorkersOf cuda),
   .constructNet,
   .makeOptimizer (0.01 : Rat) (0.5 : Rat)]

/-- The save cell: `torch.save(model.state_dict(), 'output/mnist.pth')`. -/
def saveTrace : List Ev := [.torchSave "output/mnist.pth"]

/-- The export cell: `trained_model = Net()`,
`trained_model.load_state_dict(torch.load('output/mnist.pth'))`,
`dummy_input = Variable(torch.randn(1, 1, 28, 28))`,
`torch.onnx.export(trained_model, dummy_input, "output/mnist.onnx")`. -/
def exportTrace : List Ev :=
  [.constructNet, .torchLoad "output/mnist.pth", .loadStateDict,
   .randn [1, 1, 28, 28], .onnxExport "output/mnist.onnx" [1, 1, 28, 28]]

/-- The import cell: `onnx.load('output/mnist.onnx')` then
`prepare(model)`. -/
def importTrace : List Ev :=
  [.onnxLoad "output/mnist.onnx", .prepareBackend]

/-- The exploration cell: four `print` calls on `tf_rep`. -/
def exploreTrace : List Ev := [.logLine, .logLine, .logLine, .logLine]

/-- The inference cell: for each of `assets/two.png` and
`assets/three.png`, open/resize/grayscale the image, display it, run
`tf_rep.run` on `np.asarray(img, dtype=np.float32)[np.newaxis,
np.newaxis, :, :]` (raw float32 pixels, shape 1x1x28x28), and print the
argmax. -/
def inferTrace : List Ev :=
  [.logLine, .imageOpen "assets/two.png", .displayImage,
   .tfRun [.rawFloat32] [1, 1, 28, 28], .logLine,
   .logLine, .imageOpen "assets/three.png", .displayImage,
   .tfRun [.rawFloat32] [1, 1, 28, 28], .logLine]

/-- The final cell: `tf_rep.export_graph('output/mnist.pb')`. -/
def graphTrace : List Ev := [.exportGraph "output/mnist.pb"]

/-- The full executed notebook, cells in order.  `cuda` is whether CUDA
is available, `nbTrain`/`nbTest` are the number of batches the two data
loaders yield per epoch.  The parsed args fix 60 epochs and
log-interval 300. -/
def pipeline (cuda : Bool) (nbTrain nbTest : Nat) : List Ev :=
  [.defineNet] ++ setupTrace cuda ++ epochLoop nbTrain nbTest 300 60
    ++ saveTrace ++ exportTrace ++ importTrace ++ exploreTrace
    ++ inferTrace ++ graphTrace

/-- The spec's six stages.  Events that belong to a unique stage are
mapped to its number (1 model definition, 2 training/evaluation,
3 checkpoint persistence, 4 ONNX export, 5 import into TensorFlow,
6 inference and graph serialization); events that occur in several
stages (`Net()` construction, `print`, `display`) get `none`. -/
def stageOf : Ev → Option Nat
  | .defineNet => some 1
  | .manualSeed _ => some 2
  | .mnistDataset _ _ _ _ => some 2
  | .makeDataLoader _ _ _ => some 2
  | .constructNet => none
  | .makeOptimizer _ _ => some 2
  | .setTrainMode => some 2
  | .setEvalMode => some 2
  | .zeroGrad => some 2
  | .forwardPass => some 2
  | .computeNllLoss => some 2
  | .lossBackward => some 2
  | .optimizerStep => some 2
  | .computePred => some 2
  | .logLine => none
  | .torchSave _ => some 3
  | .torchLoad _ => some 4
  | .loadStateDict => some 4
  | .randn _ => some 4
  | .onnxExport _ _ => some 4
  | .onnxLoad _ => some 5
  | .prepareBackend => some 5
  | .imageOpen _ => some 6
  | .displayImage => none
  | .tfRun _ _ => some 6
  | .exportGraph _ => some 6

/-- Collapse consecutive equal entries of a list (so the result lists
the runs of the input in order). -/
def squashRuns : List Nat → List Nat
  | [] => []
  | [a] => [a]
  | a :: b :: rest =>
      if a = b then squashRuns (b :: rest) else a :: squashRuns (b :: rest)

/-- The sequence of stages the trace passes through, consecutive
repetitions collapsed. -/
def stageRuns (l : List Ev) : List Nat :=
  squashRuns (l.filterMap stageOf)

/-- The file paths an event reads.  `datasets.MNIST(root, …)` reads the
dataset under its root in both the train and the test construction;
`torch.load`, `onnx.load` and `Image.open` read their argument. -/
def readsPaths : Ev → List String
  | .mnistDataset root _ _ _ => [root]
  | .torchLoad p => [p]
  | .onnxLoad p => [p]
  | .imageOpen p => [p]
  | _ => []

/-- The file paths an event writes.  `fresh` says whether the MNIST
dataset is absent from the root at run time: `datasets.MNIST(root,
download=True)` downloads and writes the dataset files under `root` on
such a run.  `torch.save`, `torch.onnx.export` and
`tf_rep.export_graph` write their path argument. -/
def writesPaths (fresh : Bool) : Ev → List String
  | .mnistDataset root _ download _ =>
      if download && fresh then [root] else []
  | .torchSave p => [p]
  | .onnxExport p _ => [p]
  | .exportGraph p => [p]
  | _ => []

/-- All distinct paths a trace writes, in first-write order. -/
def writtenPaths (fresh : Bool) (l : List Ev) : List String :=
  ((l.map (writesPaths fresh)).flatten).dedup

/-- All distinct paths a trace reads or writes (the program's
file-system surface), in first-access order. -/
def touchedPaths (fresh : Bool) (l : List Ev) : List String :=
  ((l.map (fun e => readsPaths e ++ writesPaths fresh e)).flatten).dedup

/-- Sequential execution of a trace against an oracle that says, for
each library call, whether it succeeds or raises.  There is no handler
anywhere: the first error aborts the run and is returned as is. -/
def runEvents {E : Type} (oracle : Ev → Except E Unit) : List Ev → Except E Unit
  | [] => .ok ()
  | e :: rest =>
      match oracle e with
      | .error x => .error x
      | .ok _ => runEvents oracle rest

/-- Does the event set (or zero) model parameter values?  Only
`optimizer.step()` and `load_state_dict` write the network's
parameters in the notebook. -/
def updatesParams : Ev → Bool
  | .optimizerStep => true
  | .loadStateDict => true
  | _ => false

/-- Does the event compute gradients?  Only `loss.backward()` does. -/
def computesGrads : Ev → Bool
  | .lossBackward => true
  | _ => false

/-- Is the event a call into an external library (PyTorch, torchvision,
ONNX, onnx-tf, PIL), as opposed to the notebook's own glue
(definitions and `print`/`display`)? -/
def isExternalLibCall : Ev → Bool
  | .defineNet => false
  | .logLine => false
  | .displayImage => false
  | _ => true

/-- Does the event spawn a thread, process, task or any other
concurrent activity at the notebook's level?  No notebook operation
does: every constructor is a plain synchronous call. -/
def spawnsConcurrency : Ev → Bool := fun _ => false

/-- Recognizer for `torch.onnx.export` events. -/
def isOnnxExport : Ev → Bool
  | .onnxExport _ _ => true
  | _ => false

/-- Recognizer for `torch.randn` dummy-input events. -/
def isRandn : Ev → Bool
  | .randn _ => true
  | _ => false

/-- Recognizer for `tf_rep.run` events. -/
def isTfRun : Ev → Bool
  | .tfRun _ _ => true
  | _ => false

/-- Recognizer for `Image.open` events. -/
def isImageOpen : Ev → Bool
  | .imageOpen _ => true
  | _ => false

/-- Recognizer for `tf_rep.export_graph` events. -/
def isExportGraph : Ev → Bool
  | .exportGraph _ => true
  | _ => false

/-- Recognizer for `optimizer.step()` events. -/
def isOptimizerStep : Ev → Bool
  | .optimizerStep => true
  | _ => false

/-- The file contents at `output/mnist.pth` after the save cell:
`torch.save(model.state_dict(), 'output/mnist.pth')` serializes the
trained parameters `trained` with the library serializer `ser` and
stores them at exactly that path. -/
def savedCheckpoint {P B : Type} (ser : P → B) (trained : P) :
    String → Option B :=
  fun q => if q = "output/mnist.pth" then some (ser trained) else none

/-- The parameters of the freshly constructed `Net()` after
`trained_model.load_state_dict(torch.load('output/mnist.pth'))`: the
bytes read back from the checkpoint path, deserialized with `deser`.
This is the state dict `torch.onnx.export` then traces. -/
def exportedParams {P B : Type} (ser : P → B) (deser : B → P)
    (trained : P) : Option P :=
  (savedCheckpoint ser trained "output/mnist.pth").map deser

/-- Semantics of one pixel transform on a pixel value (as an exact
rational): `ToTensor` scales uint8 0..255 to 0..1, `Normalize`
subtracts the mean and divides by the standard deviation, and the raw
float32 conversion keeps the value. -/
def applyTransform : Transform → Rat → Rat
  | .toTensor, p => p / 255
  | .normalize m s, p => (p - m) / s
  | .rawFloat32, p => p

/-- Semantics of a transform pipeline on one pixel value. -/
def applyTransforms (tfs : List Transform) (p : Rat) : Rat :=
  tfs.foldl (fun x t => applyTransform t x) p

/-- The events that can occur inside the epoch loop. -/
def isLoopEv : Ev → Bool
  | .setTrainMode => true
  | .setEvalMode => true
  | .zeroGrad => true
  | .forwardPass => true
  | .computeNllLoss => true
  | .lossBackward => true
  | .optimizerStep => true
  | .computePred => true
  | .logLine => true
  | _ => false

lemma isLoopEv_trainBatch {b li : Nat} : ∀ e ∈ trainBatch b li, isLoopEv e = true := by
  intro e he
  by_cases hb : b % li = 0 <;> simp [trainBatch, hb] at he <;>
    rcases he with rfl | rfl | rfl | rfl | rfl | rfl <;> rfl

lemma isLoopEv_trainBatches {li nb : Nat} :
    ∀ e ∈ trainBatches li nb, isLoopEv e = true := by
  induction nb with
  | zero => intro e he; cases he
  | succ n ih =>
      intro e he
      rcases List.mem_append.1 he with h | h
      · exact ih e h
      · exact isLoopEv_trainBatch e h

lemma isLoopEv_testBatches {nb : Nat} : ∀ e ∈ testBatches nb, isLoopEv e = true := by
  induction nb with
  | zero => intro e he; cases he
  | succ n ih =>
      intro e he
      rcases List.mem_append.1 he with h | h
      · exact ih e h
      · rcases h with _ | ⟨_, _ | ⟨_, _ | ⟨_, h⟩⟩⟩ <;> first | rfl | cases h

lemma isLoopEv_epochTrace {a b li : Nat} :
    ∀ e ∈ epochTrace a b li, isLoopEv e = true := by
  intro e he
  rcases he with _ | ⟨_, he⟩
  · rfl
  rcases List.mem_append.1 he with h | h
  · rcases List.mem_append.1 h with h | h
    · exact isLoopEv_trainBatches e h
    · rcases h with _ | ⟨_, h⟩
      · rfl
      · exact isLoopEv_testBatches e h
  · rcases h with _ | ⟨_, h⟩
    · rfl
    · cases h

lemma isLoopEv_epochLoop {a b li n : Nat} :
    ∀ e ∈ epochLoop a b li n, isLoopEv e = true := by
  induction n with
  | zero => intro e he; cases he
  | succ m ih =>
      intro e he
      rcases List.mem_append.1 he with h | h
      · exact ih e h
      · exact isLoopEv_epochTrace e h

lemma stageOf_eq_two_of_loop {e : Ev} (h : isLoopEv e = true) :
    ∀ s ∈ stageOf e, s = 2 := by
  cases e <;> simp_all [isLoopEv, stageOf]

lemma squash_cons_two :
    ∀ l : List Nat, (∀ x ∈ l, x = 2) →
      ∀ rest, squashRuns (2 :: (l ++ rest)) = squashRuns (2 :: rest) := by
  intro l
  induction l with
  | nil => intro _ rest; rfl
  | cons a t ih =>
      intro h rest
      have ha : a = 2 := h a (List.mem_cons_self a t)
      subst ha
      rw [List.cons_append]
      have : squashRuns (2 :: 2 :: (t ++ rest)) = squashRuns (2 :: (t ++ rest)) := by
        simp [squashRuns]
      rw [this, ih (fun x hx => h x (List.mem_cons_of_mem _ hx)) rest]

lemma filterMap_stage_loop_all_two {a b li n : Nat} :
    ∀ x ∈ (epochLoop a b li n).filterMap stageOf, x = 2 := by
  intro x hx
  obtain ⟨e, he, hs⟩ := List.mem_filterMap.1 hx
  exact stageOf_eq_two_of_loop (isLoopEv_epochLoop e he) x hs

lemma squashRuns_blocks (fm : List Nat) (h : ∀ x ∈ fm, x = 2) :
    squashRuns (1 :: 2 :: 2 :: 2 :: 2 :: 2 :: 2 ::
      (fm ++ [3, 4, 4, 4, 4, 5, 5, 6, 6, 6, 6, 6])) = [1, 2, 3, 4, 5, 6] := by
  have key := squash_cons_two fm h [3, 4, 4, 4, 4, 5, 5, 6, 6, 6, 6, 6]
  simp only [squashRuns, if_pos, if_neg, reduceIte]
  rw [key]
  rfl

lemma filter_epochLoop_eq_nil {p : Ev → Bool}
    (hp : ∀ e, isLoopEv e = true → p e = false) {a b li n : Nat} :
    (epochLoop a b li n).filter p = [] :=
  List.filter_eq_nil_iff.2 fun e he => by
    simp [hp e (isLoopEv_epochLoop e he)]

/-- **C1.**  The notebook's stages run strictly in the listed order:
collapsing consecutive repetitions, the stage sequence of the whole
trace is exactly `[1, 2, 3, 4, 5, 6]` (model definition; the
training/evaluation loop over every epoch; `torch.save` of the
checkpoint; `torch.onnx.export`; the import into TensorFlow; inference
and graph serialization) — for every CUDA availability and every batch
count of the two loaders.  In particular every stage-2 (training-loop)
event precedes the stage-3 checkpoint write, which precedes the
stage-4 ONNX export. -/
theorem C1_stages_in_order (cuda : Bool) (nbTrain nbTest : Nat) :
    stageRuns (pipeline cuda nbTrain nbTest) = [1, 2, 3, 4, 5, 6] := by
  have hshape : (pipeline cuda nbTrain nbTest).filterMap stageOf
      = 1 :: 2 :: 2 :: 2 :: 2 :: 2 :: 2 ::
        ((epochLoop nbTrain nbTest 300 60).filterMap stageOf
          ++ [3, 4, 4, 4, 4, 5, 5, 6, 6, 6, 6, 6]) := by
    simp [pipeline, setupTrace, saveTrace, exportTrace, importTrace,
      exploreTrace, inferTrace, graphTrace, List.filterMap_append, stageOf,
      mnistTransforms, numWorkersOf]
  rw [stageRuns, hshape]
  exact squashRuns_blocks _ filterMap_stage_loop_all_two

/-- **C2.**  The export stage calls `torch.onnx.export` exactly once in
the whole run: the only exporter event in the trace targets
`output/mnist.onnx` with input shape 1x1x28x28, the only dummy-input
generation is the single `torch.randn(1, 1, 28, 28)`, and that dummy
input immediately precedes the exporter call (the model is traced once
with it). -/
theorem C2_export_called_once (cuda : Bool) (nbTrain nbTest : Nat) :
    (pipeline cuda nbTrain nbTest).filter isOnnxExport
        = [.onnxExport "output/mnist.onnx" [1, 1, 28, 28]]
    ∧ (pipeline cuda nbTrain nbTest).filter isRandn
        = [.randn [1, 1, 28, 28]]
    ∧ ∃ pre post, pipeline cuda nbTrain nbTest
        = pre ++ [.randn [1, 1, 28, 28],
            .onnxExport "output/mnist.onnx" [1, 1, 28, 28]] ++ post := by
  have h1 : (epochLoop nbTrain nbTest 300 60).filter isOnnxExport = [] :=
    filter_epochLoop_eq_nil fun e he => by cases e <;> simp_all [isLoopEv, isOnnxExport]
  have h2 : (epochLoop nbTrain nbTest 300 60).filter isRandn = [] :=
    filter_epochLoop_eq_nil fun e he => by cases e <;> simp_all [isLoopEv, isRandn]
  refine ⟨?_, ?_, ?_⟩
  · simp [pipeline, setupTrace, saveTrace, exportTrace, importTrace,
      exploreTrace, inferTrace, graphTrace, List.filter_append, h1,
      isOnnxExport, mnistTransforms, numWorkersOf]
  · simp [pipeline, setupTrace, saveTrace, exportTrace, importTrace,
      exploreTrace, inferTrace, graphTrace, List.filter_append, h2,
      isRandn, mnistTransforms, numWorkersOf]
  · refine ⟨[.defineNet] ++ setupTrace cuda ++ epochLoop nbTrain nbTest 300 60
        ++ saveTrace ++ [.constructNet, .torchLoad "output/mnist.pth",
          .loadStateDict],
      importTrace ++ exploreTrace ++ inferTrace ++ graphTrace, ?_⟩
    simp [pipeline, exportTrace]

lemma flatten_map_epochLoop_eq_nil {f : Ev → List String}
    (hf : ∀ e, isLoopEv e = true → f e = []) {a b li n : Nat} :
    ((epochLoop a b li n).map f).flatten = [] :=
  List.flatten_eq_nil_iff.2 fun x hx => by
    obtain ⟨e, he, rfl⟩ := List.mem_map.1 hx
    exact hf e (isLoopEv_epochLoop e he)

set_option maxRecDepth 400000

/-- **C3, counterexample.**  The claim "the only files the program
persists are the three artifacts" is false: on a run where the MNIST
dataset is not yet present (`fresh = true`), the `datasets.MNIST(…,
download=True)` call in the training cell downloads and writes the
dataset under `../data`, a path that is none of the three artifacts. -/
theorem C3_counterexample :
    "../data" ∈ writtenPaths true (pipeline false 0 0)
    ∧ "../data" ∉
        ["output/mnist.pth", "output/mnist.onnx", "output/mnist.pb"] := by
  constructor
  · decide
  · decide

/-- **C3, amended.**  The three artifacts `output/mnist.pth`,
`output/mnist.onnx` and `output/mnist.pb` are exactly the files the
notebook itself writes, except that on a run where the MNIST dataset
is absent, `datasets.MNIST(download=True)` additionally writes the
dataset files under `../data`. -/
theorem C3_written_files (cuda fresh : Bool) (nbTrain nbTest : Nat) :
    writtenPaths fresh (pipeline cuda nbTrain nbTest)
      = (if fresh then ["../data"] else [])
        ++ ["output/mnist.pth", "output/mnist.onnx", "output/mnist.pb"] := by
  have hloop : ∀ fr : Bool, ((epochLoop nbTrain nbTest 300 60).map
      (writesPaths fr)).flatten = [] := fun fr =>
    flatten_map_epochLoop_eq_nil fun e he => by
      cases e <;> simp_all [isLoopEv, writesPaths]
  unfold writtenPaths pipeline
  simp only [List.map_append, List.flatten_append, hloop]
  cases fresh <;> cases cuda <;> decide

/-- **C4, counterexample.**  The claim that the program's file-system
surface is exactly the five listed paths is false: the trace also
reads (and on a fresh run writes) the MNIST dataset root `../data`,
which the two `datasets.MNIST('../data', …)` constructions access and
which is none of the five listed paths. -/
theorem C4_counterexample :
    "../data" ∈ touchedPaths false (pipeline false 0 0)
    ∧ "../data" ∉
        ["output/mnist.pth", "output/mnist.onnx", "assets/two.png",
         "assets/three.png", "output/mnist.pb"] := by
  constructor
  · decide
  · decide

/-- **C4, amended.**  The notebook's file-system surface consists of
exactly six paths, in first-access order: the dataset root `../data`,
the checkpoint `output/mnist.pth`, the interchange file
`output/mnist.onnx`, the two sample images `assets/two.png` and
`assets/three.png`, and the serialized graph `output/mnist.pb` — and
no other path is read or written, on any run. -/
theorem C4_touched_paths (cuda fresh : Bool) (nbTrain nbTest : Nat) :
    touchedPaths fresh (pipeline cuda nbTrain nbTest)
      = ["../data", "output/mnist.pth", "output/mnist.onnx",
         "assets/two.png", "assets/three.png", "output/mnist.pb"] := by
  have hloop : ∀ fr : Bool, ((epochLoop nbTrain nbTest 300 60).map
      (fun e => readsPaths e ++ writesPaths fr e)).flatten = [] := fun fr =>
    flatten_map_epochLoop_eq_nil fun e he => by
      cases e <;> simp_all [isLoopEv, writesPaths, readsPaths]
  unfold touchedPaths pipeline
  simp only [List.map_append, List.flatten_append, hloop]
  cases fresh <;> cases cuda <;> decide

lemma runEvents_append_error {E : Type} (oracle : Ev → Except E Unit) :
    ∀ (l1 : List Ev) (e : Ev) (l2 : List Ev) (x : E),
      (∀ f ∈ l1, oracle f = .ok ()) → oracle e = .error x →
      runEvents oracle (l1 ++ e :: l2) = .error x := by
  intro l1
  induction l1 with
  | nil =>
      intro e l2 x _ he
      simp only [List.nil_append, runEvents, he]
  | cons a t ih =>
      intro e l2 x hok he
      have ha : oracle a = .ok () := hok a (List.mem_cons_self a t)
      simp only [List.cons_append, runEvents, ha]
      exact ih e l2 x (fun f hf => hok f (List.mem_cons_of_mem _ hf)) he

/-- **C5.**  No operation catches, retries or recovers: whenever any
library call in the trace raises (the oracle maps it to an error) and
every call before it succeeded, the whole run aborts with exactly that
error — the exception reaches the top level unmodified, for every
error type, every failing call and every run configuration. -/
theorem C5_error_propagation {E : Type} (oracle : Ev → Except E Unit)
    (cuda : Bool) (nbTrain nbTest : Nat) (l1 : List Ev) (e : Ev)
    (l2 : List Ev) (x : E)
    (hsplit : pipeline cuda nbTrain nbTest = l1 ++ e :: l2)
    (hok : ∀ f ∈ l1, oracle f = .ok ())
    (herr : oracle e = .error x) :
    runEvents oracle (pipeline cuda nbTrain nbTest) = .error x := by
  rw [hsplit]
  exact runEvents_append_error oracle l1 e l2 x hok herr

/-- An oracle for the run where the test-set `datasets.MNIST`
construction raises (the dataset files are missing and that call does
not download) while every other call succeeds. -/
def missingDataOracle : Ev → Except String Unit
  | .mnistDataset _ false _ _ => .error "dataset missing"
  | _ => .ok ()

/-- Witness for **C5** at a concrete failing call: with the test-set
dataset construction raising, the whole run returns exactly that
error. -/
theorem C5_error_propagation_witness :
    runEvents missingDataOracle (pipeline false 0 0)
      = .error "dataset missing" :=
  C5_error_propagation missingDataOracle false 0 0
    [.defineNet, .manualSeed 1,
     .mnistDataset "../data" true true mnistTransforms,
     .makeDataLoader 64 true 0]
    (.mnistDataset "../data" false false mnistTransforms)
    ([.makeDataLoader 1000 true 0, .constructNet,
      .makeOptimizer (0.01 : Rat) (0.5 : Rat)]
      ++ epochLoop 0 0 300 60 ++ saveTrace ++ exportTrace ++ importTrace
      ++ exploreTrace ++ inferTrace ++ graphTrace)
    "dataset missing"
    (by simp [pipeline, setupTrace, numWorkersOf])
    (by intro f hf; fin_cases hf <;> rfl)
    rfl

lemma countP_optimizerStep_trainBatch (b li : Nat) :
    (trainBatch b li).countP isOptimizerStep = 1 := by
  by_cases hb : b % li = 0 <;> simp [trainBatch, hb] <;> decide

lemma countP_optimizerStep_trainBatches (li nb : Nat) :
    (trainBatches li nb).countP isOptimizerStep = nb := by
  induction nb with
  | zero => rfl
  | succ n ih =>
      rw [trainBatches, List.countP_append, ih,
        countP_optimizerStep_trainBatch]

lemma countP_optimizerStep_testBatches (nb : Nat) :
    (testBatches nb).countP isOptimizerStep = 0 := by
  induction nb with
  | zero => rfl
  | succ n ih => rw [testBatches, List.countP_append, ih]; rfl

lemma countP_optimizerStep_epochTrace (a b li : Nat) :
    (epochTrace a b li).countP isOptimizerStep = a := by
  simp [epochTrace, List.countP_append, List.countP_cons,
    countP_optimizerStep_trainBatches, countP_optimizerStep_testBatches,
    isOptimizerStep]

lemma countP_optimizerStep_epochLoop (a b li n : Nat) :
    (epochLoop a b li n).countP isOptimizerStep = n * a := by
  induction n with
  | zero => simp [epochLoop]
  | succ m ih =>
      rw [epochLoop, List.countP_append, ih, countP_optimizerStep_epochTrace]
      ring

/-- **C6.**  The training loop delegates gradient computation and
parameter updates entirely to the library: inside the epoch loop the
only event that writes parameters is `optimizer.step()` and the only
event that computes gradients is `loss.backward()` (both external
library calls, as is `optimizer.zero_grad()`); each batch trace is
exactly `zero_grad`, forward pass, `nll_loss`, `backward`, `step`,
followed at most by a log line; and every epoch performs exactly one
`optimizer.step()` per batch of the loader (`n` epochs over `a`
batches give `n * a` steps). -/
theorem C6_training_delegation :
    (∀ a b li n e, e ∈ epochLoop a b li n → updatesParams e = true →
        e = .optimizerStep)
    ∧ (∀ a b li n e, e ∈ epochLoop a b li n → computesGrads e = true →
        e = .lossBackward)
    ∧ isExternalLibCall .zeroGrad = true
    ∧ isExternalLibCall .lossBackward = true
    ∧ isExternalLibCall .optimizerStep = true
    ∧ (∀ b li, ∃ tail, trainBatch b li
        = [.zeroGrad, .forwardPass, .computeNllLoss, .lossBackward,
           .optimizerStep] ++ tail ∧ ∀ e ∈ tail, e = .logLine)
    ∧ (∀ a b li n, (epochLoop a b li n).countP isOptimizerStep = n * a) := by
  refine ⟨?_, ?_, rfl, rfl, rfl, ?_, countP_optimizerStep_epochLoop⟩
  · intro a b li n e he hu
    have hl := isLoopEv_epochLoop e he
    cases e <;> simp_all [updatesParams, isLoopEv]
  · intro a b li n e he hg
    cases e <;> simp_all [computesGrads]
  · intro b li
    refine ⟨if b % li = 0 then [.logLine] else [], rfl, ?_⟩
    by_cases hb : b % li = 0 <;> simp [hb]

/-- Witness for **C6**: `optimizer.step()` occurs in a concrete epoch
loop, satisfies `updatesParams`, and the theorem identifies it. -/
theorem C6_training_delegation_witness :
    Ev.optimizerStep ∈ epochLoop 1 1 300 1
    ∧ updatesParams .optimizerStep = true
    ∧ Ev.optimizerStep = .optimizerStep :=
  ⟨by decide, rfl,
    C6_training_delegation.1 1 1 300 1 .optimizerStep (by decide) rfl⟩

lemma countP_epochLoop_eq_zero {p : Ev → Bool}
    (hp : ∀ e, isLoopEv e = true → p e = false) {a b li n : Nat} :
    (epochLoop a b li n).countP p = 0 :=
  List.countP_eq_zero.2 fun e he => by
    simp [hp e (isLoopEv_epochLoop e he)]

/-- **C7.**  After the ONNX model is imported with `prepare`, the trace
ends with the inference cell and the graph export: the pipeline is
some prefix followed by the import cell, the exploratory prints, the
inference cell and finally `tf_rep.export_graph('output/mnist.pb')`.
Inference runs exactly twice (`tf_rep.run` has exactly two
occurrences), on exactly the two sample images `assets/two.png` and
`assets/three.png` in that order, and `export_graph` is called exactly
once, targeting `output/mnist.pb`. -/
theorem C7_inference_then_graph_export (cuda : Bool) (nbTrain nbTest : Nat) :
    (∃ pre, pipeline cuda nbTrain nbTest
        = pre ++ importTrace ++ exploreTrace ++ inferTrace ++ graphTrace)
    ∧ (pipeline cuda nbTrain nbTest).countP isTfRun = 2
    ∧ (pipeline cuda nbTrain nbTest).filter isImageOpen
        = [.imageOpen "assets/two.png", .imageOpen "assets/three.png"]
    ∧ (pipeline cuda nbTrain nbTest).filter isExportGraph
        = [.exportGraph "output/mnist.pb"] := by
  have h1 : (epochLoop nbTrain nbTest 300 60).countP isTfRun = 0 :=
    countP_epochLoop_eq_zero fun e he => by
      cases e <;> simp_all [isLoopEv, isTfRun]
  have h2 : (epochLoop nbTrain nbTest 300 60).filter isImageOpen = [] :=
    filter_epochLoop_eq_nil fun e he => by
      cases e <;> simp_all [isLoopEv, isImageOpen]
  have h3 : (epochLoop nbTrain nbTest 300 60).filter isExportGraph = [] :=
    filter_epochLoop_eq_nil fun e he => by
      cases e <;> simp_all [isLoopEv, isExportGraph]
  refine ⟨⟨[.defineNet] ++ setupTrace cuda ++ epochLoop nbTrain nbTest 300 60
      ++ saveTrace ++ exportTrace, by simp [pipeline]⟩, ?_, ?_, ?_⟩
  · simp [pipeline, setupTrace, saveTrace, exportTrace, importTrace,
      exploreTrace, inferTrace, graphTrace, List.countP_append, h1,
      List.countP_cons, isTfRun, mnistTransforms, numWorkersOf]
  · simp [pipeline, setupTrace, saveTrace, exportTrace, importTrace,
      exploreTrace, inferTrace, graphTrace, List.filter_append, h2,
      isImageOpen, mnistTransforms, numWorkersOf]
  · simp [pipeline, setupTrace, saveTrace, exportTrace, importTrace,
      exploreTrace, inferTrace, graphTrace, List.filter_append, h3,
      isExportGraph, mnistTransforms, numWorkersOf]

/-- Recognizer for `DataLoader` construction events. -/
def isMakeDataLoader : Ev → Bool
  | .makeDataLoader _ _ _ => true
  | _ => false

/-- **C8.**  The notebook's execution is single-threaded, synchronous
and sequential: running a concatenated trace runs the first part to
completion (or to its first error) before the second part starts; no
event of any run spawns a thread, process or task of the notebook's
own; and the only parallelism knob it touches is the loaders'
`num_workers`, which is 1 exactly when CUDA is available and 0
otherwise (the two `DataLoader` constructions being the only such
events). -/
theorem C8_sequential_execution :
    (∀ (E : Type) (oracle : Ev → Except E Unit) (l1 l2 : List Ev),
        runEvents oracle (l1 ++ l2)
          = match runEvents oracle l1 with
            | .error x => .error x
            | .ok _ => runEvents oracle l2)
    ∧ (∀ cuda nbTrain nbTest, ∀ e ∈ pipeline cuda nbTrain nbTest,
        spawnsConcurrency e = false)
    ∧ (∀ cuda nbTrain nbTest, (pipeline cuda nbTrain nbTest).filter
        isMakeDataLoader
        = [.makeDataLoader 64 true (numWorkersOf cuda),
           .makeDataLoader 1000 true (numWorkersOf cuda)])
    ∧ numWorkersOf true = 1 ∧ numWorkersOf false = 0 := by
  refine ⟨?_, fun _ _ _ _ _ => rfl, ?_, rfl, rfl⟩
  · intro E oracle l1 l2
    induction l1 with
    | nil => simp [runEvents]
    | cons a t ih =>
        simp only [List.cons_append, runEvents]
        cases h : oracle a <;> simp [h, ih]
  · intro cuda nbTrain nbTest
    have h1 : (epochLoop nbTrain nbTest 300 60).filter isMakeDataLoader = [] :=
      filter_epochLoop_eq_nil fun e he => by
        cases e <;> simp_all [isLoopEv, isMakeDataLoader]
    simp [pipeline, setupTrace, saveTrace, exportTrace, importTrace,
      exploreTrace, inferTrace, graphTrace, List.filter_append, h1,
      isMakeDataLoader, mnistTransforms, numWorkersOf]

/-- Witness for **C8**: a concrete event of a concrete run, shown not
to spawn any concurrency. -/
theorem C8_sequential_execution_witness :
    Ev.manualSeed 1 ∈ pipeline false 0 0
    ∧ spawnsConcurrency (.manualSeed 1) = false :=
  ⟨by decide,
    C8_sequential_execution.2.1 false 0 0 (.manualSeed 1) (by decide)⟩

/-- Recognizer for `datasets.MNIST` construction events. -/
def isMnistDataset : Ev → Bool
  | .mnistDataset _ _ _ _ => true
  | _ => false

/-- **C9.**  The model handed to `torch.onnx.export` is not the
in-memory trained object but a fresh `Net()` whose state dict is read
back from `output/mnist.pth`: the trace contains the segment `Net()`;
`torch.load('output/mnist.pth')`; `load_state_dict`; dummy input;
export, and the exported parameters are exactly
`deser (ser trained)` — the serializer round trip applied to the
trained parameters — so they equal the trained parameters precisely
when the save-then-load round trip through the checkpoint preserves
the state dict. -/
theorem C9_checkpoint_roundtrip {P B : Type} (ser : P → B) (deser : B → P)
    (trained : P) :
    exportedParams ser deser trained = some (deser (ser trained))
    ∧ (exportedParams ser deser trained = some trained
        ↔ deser (ser trained) = trained)
    ∧ (∀ (cuda : Bool) (nbTrain nbTest : Nat), ∃ pre post,
        pipeline cuda nbTrain nbTest = pre ++ exportTrace ++ post) := by
  have hexp : exportedParams ser deser trained
      = some (deser (ser trained)) := by
    simp [exportedParams, savedCheckpoint]
  refine ⟨hexp, ?_, ?_⟩
  · rw [hexp, Option.some_inj]
  · intro cuda nbTrain nbTest
    exact ⟨[.defineNet] ++ setupTrace cuda ++ epochLoop nbTrain nbTest 300 60
        ++ saveTrace,
      importTrace ++ exploreTrace ++ inferTrace ++ graphTrace,
      by simp [pipeline]⟩

/-- **C10.**  Training/test inputs and inference inputs are on
different scales: every `datasets.MNIST` construction in the trace
uses `ToTensor` followed by `Normalize((0.1307,), (0.3081,))`, while
every `tf_rep.run` call feeds raw float32 pixels (no rescaling) shaped
1x1x28x28.  On a pixel value `p`, inference passes `p` unchanged while
training passes `(p/255 - 0.1307) / 0.3081`; over the whole pixel
range 0..255 the training input stays below 3 while inference feeds
values up to 255. -/
theorem C10_preprocessing_mismatch :
    (∀ (cuda : Bool) (nbTrain nbTest : Nat) root tr dl tfs,
        Ev.mnistDataset root tr dl tfs ∈ pipeline cuda nbTrain nbTest →
          tfs = mnistTransforms)
    ∧ (∀ (cuda : Bool) (nbTrain nbTest : Nat) tfs sh,
        Ev.tfRun tfs sh ∈ pipeline cuda nbTrain nbTest →
          tfs = [.rawFloat32] ∧ sh = [1, 1, 28, 28])
    ∧ (∀ p : Rat, applyTransforms [.rawFloat32] p = p)
    ∧ (∀ p : Rat, applyTransforms mnistTransforms p
        = (p / 255 - 0.1307) / 0.3081)
    ∧ (∀ p : Rat, 0 ≤ p → p ≤ 255 →
        applyTransforms mnistTransforms p < 3)
    ∧ applyTransforms [.rawFloat32] 255 = 255 := by
  have hnorm : ∀ p : Rat, applyTransforms mnistTransforms p
      = (p / 255 - 0.1307) / 0.3081 := by
    intro p
    simp [applyTransforms, mnistTransforms, applyTransform]
  refine ⟨?_, ?_, fun p => rfl, hnorm, ?_, rfl⟩
  · intro cuda nbTrain nbTest root tr dl tfs h
    have hloop : (epochLoop nbTrain nbTest 300 60).filter isMnistDataset
        = [] :=
      filter_epochLoop_eq_nil fun e he => by
        cases e <;> simp_all [isLoopEv, isMnistDataset]
    have hfil : (pipeline cuda nbTrain nbTest).filter isMnistDataset
        = [.mnistDataset "../data" true true mnistTransforms,
           .mnistDataset "../data" false false mnistTransforms] := by
      simp [pipeline, setupTrace, saveTrace, exportTrace, importTrace,
        exploreTrace, inferTrace, graphTrace, List.filter_append, hloop,
        isMnistDataset, mnistTransforms, numWorkersOf]
    have hm : Ev.mnistDataset root tr dl tfs
        ∈ (pipeline cuda nbTrain nbTest).filter isMnistDataset :=
      List.mem_filter.2 ⟨h, rfl⟩
    rw [hfil] at hm
    simp only [List.mem_cons, List.not_mem_nil, or_false] at hm
    rcases hm with h1 | h1
    · injection h1 with _ _ _ h4
    · injection h1 with _ _ _ h4
  · intro cuda nbTrain nbTest tfs sh h
    have hloop : (epochLoop nbTrain nbTest 300 60).filter isTfRun = [] :=
      filter_epochLoop_eq_nil fun e he => by
        cases e <;> simp_all [isLoopEv, isTfRun]
    have hfil : (pipeline cuda nbTrain nbTest).filter isTfRun
        = [.tfRun [.rawFloat32] [1, 1, 28, 28],
           .tfRun [.rawFloat32] [1, 1, 28, 28]] := by
      simp [pipeline, setupTrace, saveTrace, exportTrace, importTrace,
        exploreTrace, inferTrace, graphTrace, List.filter_append, hloop,
        isTfRun, mnistTransforms, numWorkersOf]
    have hm : Ev.tfRun tfs sh
        ∈ (pipeline cuda nbTrain nbTest).filter isTfRun :=
      List.mem_filter.2 ⟨h, rfl⟩
    rw [hfil] at hm
    simp only [List.mem_cons, List.not_mem_nil, or_false, or_self] at hm
    injection hm with h3 h4
    exact ⟨h3, h4⟩
  · intro p hp hp'
    rw [hnorm]
    have h255 : p / 255 ≤ 1 := by
      rw [div_le_one (by norm_num : (0 : Rat) < 255)]
      exact hp'
    rw [div_lt_iff₀ (by norm_num : (0 : Rat) < 0.3081)]
    nlinarith [h255]

/-- Witness for **C10**: the concrete `tf_rep.run` event of a concrete
run uses raw pixels at shape 1x1x28x28, and the normalized training
value at the maximal pixel 255 is below 3. -/
theorem C10_preprocessing_mismatch_witness :
    (Ev.tfRun [.rawFloat32] [1, 1, 28, 28] ∈ pipeline false 0 0)
    ∧ ([Transform.rawFloat32] = [Transform.rawFloat32]
        ∧ ([1, 1, 28, 28] : List Nat) = [1, 1, 28, 28])
    ∧ applyTransforms mnistTransforms 255 < 3 :=
  ⟨by decide,
    C10_preprocessing_mismatch.2.1 false 0 0 [.rawFloat32] [1, 1, 28, 28]
      (by decide),
    C10_preprocessing_mismatch.2.2.2.2.1 255 (by norm_num) (by norm_num)⟩
